import Mathlib

/-!
Verification of the Pico NAND flash dumper firmware (nand_dumper.c).

The development shallowly embeds the firmware: the pure ID-byte decoding
functions become Lean functions, the bus primitives become event traces,
the worker core (core1_main) and the serial command loop (main) become
explicit state machines, and the unbounded ready/busy poll inside
read_bytes becomes a fuel-indexed search over a line schedule.
-/

namespace NandDump

/-! ## Data model: identification bytes and flash geometry -/

/-- The five raw identification bytes (id_data_t in the source). -/
structure IdData where
  maker : Nat
  device : Nat
  chip_n_type : Nat
  pgsz_bksz_iow : Nat
  districts : Nat
deriving DecidableEq, Repr

/-- Decoded flash geometry (flash_info_struct in the source). -/
structure FlashInfo where
  page_size_bytes : Nat
  oob_size_bytes : Nat
  flash_size_bytes : Nat
deriving DecidableEq, Repr

/-- Maker code recognized by the firmware (maker_enum TOSHIBA_KIOXIA). -/
def TOSHIBA_KIOXIA : Nat := 0x98

/-- Embedding of get_flash_info: decode the 2-bit page-size field of the
fourth ID byte into a page size in KB; for the recognized maker the two
recognized decodes fix page and spare sizes, and the total flash size is
64 * 2048 * (page + spare); every other case yields no geometry. -/
def get_flash_info (id : IdData) : Option FlashInfo :=
  let pg_size_kb := 1 <<< (id.pgsz_bksz_iow &&& 0x03)
  if id.maker = TOSHIBA_KIOXIA then
    (match pg_size_kb with
      | 4 => some (4096, 256)
      | 2 => some (2048, 128)
      | _ => none).map fun ps : Nat × Nat =>
        { page_size_bytes := ps.1, oob_size_bytes := ps.2,
          flash_size_bytes := 64 * 2048 * (ps.1 + ps.2) }
  else none

/-- Embedding of check_supported_io_width: decode the IO-width bit (bit 6
of the fourth ID byte) and accept exactly the x8 organization. -/
def check_supported_io_width (id : IdData) : Bool :=
  (1 <<< ((id.pgsz_bksz_iow &&& 0x40) >>> 6)) * 8 == 8

/-! ## Bitfield helper lemmas -/

theorem and_three_eq_mod (x : Nat) : x &&& 3 = x % 4 := by
  have h := Nat.and_pow_two_sub_one_eq_mod x 2
  norm_num at h
  exact h

theorem and_255_eq_mod (x : Nat) : x &&& 255 = x % 256 := by
  have h := Nat.and_pow_two_sub_one_eq_mod x 8
  norm_num at h
  exact h

theorem shiftRight_eight (x : Nat) : x >>> 8 = x / 256 := by
  have h := Nat.shiftRight_eq_div_pow x 8
  norm_num at h
  exact h

theorem shiftRight_sixteen (x : Nat) : x >>> 16 = x / 65536 := by
  have h := Nat.shiftRight_eq_div_pow x 16
  norm_num at h
  exact h

/-- C1: get_flash_info is a pure function of the identification bytes: for
maker 0x98 it returns page 2048 / spare 128 when the 2-bit page-size field
decodes to 2 KB and page 4096 / spare 256 when it decodes to 4 KB, each
with total flash size 64 * 2048 * (page + spare); for any other page-size
decode or any other maker it returns none rather than a default record. -/
theorem C1_get_flash_info_geometry :
    (∀ id : IdData, id.maker = 0x98 →
      ((1 <<< (id.pgsz_bksz_iow &&& 0x03) = 2 →
          get_flash_info id =
            some { page_size_bytes := 2048, oob_size_bytes := 128,
                   flash_size_bytes := 64 * 2048 * (2048 + 128) }) ∧
       (1 <<< (id.pgsz_bksz_iow &&& 0x03) = 4 →
          get_flash_info id =
            some { page_size_bytes := 4096, oob_size_bytes := 256,
                   flash_size_bytes := 64 * 2048 * (4096 + 256) }) ∧
       (1 <<< (id.pgsz_bksz_iow &&& 0x03) ≠ 2 →
        1 <<< (id.pgsz_bksz_iow &&& 0x03) ≠ 4 →
          get_flash_info id = none))) ∧
    (∀ id : IdData, id.maker ≠ 0x98 → get_flash_info id = none) := by
  constructor
  · intro id hm
    refine ⟨?_, ?_, ?_⟩
    · intro h2
      simp only [get_flash_info, hm, TOSHIBA_KIOXIA, if_pos, h2]
      rfl
    · intro h4
      simp only [get_flash_info, hm, TOSHIBA_KIOXIA, if_pos, h4]
      rfl
    · intro h2 h4
      simp only [get_flash_info, hm, TOSHIBA_KIOXIA, if_pos]
      have hlt : id.pgsz_bksz_iow &&& 3 < 4 := by
        rw [and_three_eq_mod]
        exact Nat.mod_lt _ (by decide)
      interval_cases h : (id.pgsz_bksz_iow &&& 3) <;>
        simp_all
  · intro id hm
    simp [get_flash_info, TOSHIBA_KIOXIA, hm]

/-- Witness for C1 at the documented chip: ID bytes 98 dc 90 26 76 give
the 4 KB geometry, and an unknown maker gives none. -/
theorem C1_witness :
    get_flash_info
        { maker := 0x98, device := 0xDC, chip_n_type := 0x90,
          pgsz_bksz_iow := 0x26, districts := 0x76 } =
      some { page_size_bytes := 4096, oob_size_bytes := 256,
             flash_size_bytes := 64 * 2048 * (4096 + 256) } ∧
    get_flash_info
        { maker := 0x2C, device := 0xDC, chip_n_type := 0x90,
          pgsz_bksz_iow := 0x26, districts := 0x76 } = none := by
  constructor
  · exact (C1_get_flash_info_geometry.1
      { maker := 0x98, device := 0xDC, chip_n_type := 0x90,
        pgsz_bksz_iow := 0x26, districts := 0x76 } rfl).2.1 (by decide)
  · exact C1_get_flash_info_geometry.2
      { maker := 0x2C, device := 0xDC, chip_n_type := 0x90,
        pgsz_bksz_iow := 0x26, districts := 0x76 } (by decide)

/-! ## Bus primitives as event traces

Each bus primitive is embedded as the sequence of externally visible bus
operations it performs; the cycle-level pin wiggles inside one command or
address latch are abstracted into a single event carrying the byte. -/

/-- One externally visible bus operation. -/
inductive BusEvent where
  | cmd (b : Nat)
  | addrByte (b : Nat)
  | ceHigh
  | sleepUs (n : Nat)
  | readBytes (n : Nat)
deriving DecidableEq, Repr

/-- Trace of write_cmd: latch one command byte. -/
def write_cmd_trace (c : Nat) : List BusEvent := [.cmd c]

/-- Trace of reset_nand: command 0xFF, de-assert chip enable, sleep 600 us. -/
def reset_nand_trace : List BusEvent :=
  write_cmd_trace 0xFF ++ [.ceHigh, .sleepUs 600]

/-- Trace of write_addr_5: the five address bytes in emission order,
computed exactly as in the source (column low 8 bits, column high 5 bits,
row low 8 bits, row mid 8 bits, row high 1 bit). -/
def write_addr_5_trace (page_addr col_addr : Nat) : List BusEvent :=
  [.addrByte (col_addr &&& 0xFF),
   .addrByte ((col_addr >>> 8) &&& 0x1F),
   .addrByte (page_addr &&& 0xFF),
   .addrByte ((page_addr >>> 8) &&& 0xFF),
   .addrByte ((page_addr >>> 16) &&& 0x01)]

/-- Trace of read_page: reset, read setup command 0x00, 5-byte address at
column 0, read confirm command 0x30, settle delay, payload read. -/
def read_page_trace (page_num page_size : Nat) : List BusEvent :=
  reset_nand_trace ++ write_cmd_trace 0x00 ++ write_addr_5_trace page_num 0 ++
    write_cmd_trace 0x30 ++ [.sleepUs 1] ++ [.readBytes page_size]

/-- C2: read_page performs exactly the sequence reset (command 0xFF, chip
disable, sleep), command 0x00, five address bytes in order column-low 0,
column-high 0, row-low, row-mid, row-high (1 bit), command 0x30, a settle
delay, and a payload read; the three row bytes encode page_num mod 2^17. -/
theorem C2_read_page_bus_sequence (page_num page_size : Nat) :
    read_page_trace page_num page_size =
      [.cmd 0xFF, .ceHigh, .sleepUs 600,
       .cmd 0x00,
       .addrByte 0, .addrByte 0,
       .addrByte (page_num &&& 0xFF),
       .addrByte ((page_num >>> 8) &&& 0xFF),
       .addrByte ((page_num >>> 16) &&& 0x01),
       .cmd 0x30, .sleepUs 1, .readBytes page_size] ∧
    (page_num &&& 0xFF) + ((page_num >>> 8) &&& 0xFF) * 256 +
      ((page_num >>> 16) &&& 0x01) * 65536 = page_num % 131072 := by
  constructor
  · rfl
  · rw [and_255_eq_mod, shiftRight_eight, and_255_eq_mod, shiftRight_sixteen,
      Nat.and_one_is_mod]
    omega

/-! ## Worker core (core1_main) as a state machine

The worker state is the loop-local page counter, the result record whose
size field persists across iterations, and the shared bulk buffer. One
iteration dequeues a command, executes it, and publishes exactly one
result; output events model printf calls (the worker makes none). -/

/-- Command tags (cmd_enum in the source). -/
inductive CmdEnum where
  | CMD_READ_ID
  | CMD_READ_PAGE
  | CMD_RESET_PAGE_NO
  | CMD_SET_PAGE_NO
  | CMD_GET_DRIVE_STRENGTH
  | CMD_GET_FLASH_INFO
  | CMD_NONE
deriving DecidableEq, Repr

/-- A queued command (cmd_t in the source). -/
structure Cmd where
  cmd : CmdEnum
  arg : Nat
deriving DecidableEq, Repr

/-- Size of the shared bulk buffer (shared_buffer is 16384 bytes). -/
def BUF_SIZE : Nat := 16384

/-- Size of id_data_t in bytes. -/
def ID_SIZE : Nat := 5

/-- Worker-core state: the page counter, the persistent result size, and
the shared bulk buffer contents. -/
structure WorkerState where
  page_num : Nat
  res_sz : Int
  buffer : List Nat
deriving DecidableEq, Repr

/-- Environment seen by the worker: the bytes the chip returns for a page
read at a given page and offset, the identification bytes, and the
startup-decoded geometry (flash_info_glob). -/
structure FlashEnv where
  flash : Nat → Nat → Nat
  idByte : Nat → Nat
  geom : FlashInfo

/-- Outputs printed on the serial link; the constructors mirror the printf
sites of the source. -/
inductive OutEvent where
  | idHex (bytes : List Nat)
  | explainId (bytes : List Nat)
  | pageHex (bytes : List Nat)
  | errReadId (sz : Int)
  | errReadPage (sz : Int)
  | errReset (sz : Int)
  | errSetPage (sz : Int)
  | timeoutMsg
  | driveStrength
  | flashInfoOut (page oob : Nat) (total : Nat)
  | helpText
deriving DecidableEq, Repr

/-- One iteration of the core1_main dispatch switch: execute the dequeued
command, returning the new state and the (empty) list of printed output.
READ_ID stores the 5 identification bytes at the start of the buffer;
READ_PAGE clears the buffer, reads page + spare bytes of the current page,
and increments the page counter; RESET and SET assign the counter and set
the sentinel size 1; every other tag falls to the default case and changes
nothing, leaving the stale result size in place. -/
def worker_step (env : FlashEnv) (s : WorkerState) (c : Cmd) :
    WorkerState × List OutEvent :=
  match c.cmd with
  | .CMD_READ_ID =>
      ({ page_num := s.page_num,
         res_sz := (ID_SIZE : Int),
         buffer := (List.range ID_SIZE).map env.idByte ++ s.buffer.drop ID_SIZE },
       [])
  | .CMD_READ_PAGE =>
      let sz := env.geom.page_size_bytes + env.geom.oob_size_bytes
      ({ page_num := s.page_num + 1,
         res_sz := (sz : Int),
         buffer := (List.range sz).map (env.flash s.page_num) ++
           (List.replicate BUF_SIZE 0).drop sz },
       [])
  | .CMD_RESET_PAGE_NO =>
      ({ page_num := 0, res_sz := 1, buffer := s.buffer }, [])
  | .CMD_SET_PAGE_NO =>
      ({ page_num := c.arg, res_sz := 1, buffer := s.buffer }, [])
  | _ => (s, [])

/-- Run the worker over a list of dequeued commands, collecting the
published result sizes (one enqueued per iteration) and printed output. -/
def worker_run (env : FlashEnv) : WorkerState → List Cmd →
    WorkerState × List Int × List OutEvent
  | s, [] => (s, [], [])
  | s, c :: cs =>
      let s1 := (worker_step env s c).1
      let out := (worker_step env s c).2
      let rest := worker_run env s1 cs
      (rest.1, s1.res_sz :: rest.2.1, out ++ rest.2.2)

/-- Worker state at process start: page counter 0, result size 0, zeroed
shared buffer. -/
def initWorker : WorkerState :=
  { page_num := 0, res_sz := 0, buffer := List.replicate BUF_SIZE 0 }

/-- The READ_PAGE command as dispatched by the control core. -/
def readPageCmd : Cmd := { cmd := .CMD_READ_PAGE, arg := 0 }

/-- A concrete environment: the documented chip (ID bytes 98 dc 90 26 76,
4 KB pages) over a constant flash array. -/
def env0 : FlashEnv :=
  { flash := fun _ _ => 0xAB,
    idByte := fun i => [0x98, 0xDC, 0x90, 0x26, 0x76].getD i 0,
    geom := { page_size_bytes := 4096, oob_size_bytes := 256,
              flash_size_bytes := 64 * 2048 * 4352 } }

/-- Helper: N consecutive READ_PAGE iterations advance the page counter by
exactly N. -/
theorem worker_run_readPage_adds (env : FlashEnv) :
    ∀ (N : Nat) (s : WorkerState),
      ((worker_run env s (List.replicate N readPageCmd)).1).page_num =
        s.page_num + N := by
  intro N
  induction N with
  | zero => intro s; simp [worker_run]
  | succ n ih =>
      intro s
      rw [List.replicate_succ]
      show ((worker_run env ((worker_step env s readPageCmd).1)
        (List.replicate n readPageCmd)).1).page_num = s.page_num + (n + 1)
      rw [ih]
      simp [worker_step, readPageCmd]
      omega

/-- C3: the worker page counter starts at 0 and equals N after N
consecutive READ_PAGE dispatches; SET_PAGE_NO makes it the argument;
RESET_PAGE_NO makes it 0; and a dispatched command with any other tag
leaves it unchanged (only these three commands, executed by the worker,
modify it). -/
theorem C3_worker_page_counter :
    (∀ (env : FlashEnv) (s0 : WorkerState) (N : Nat), s0.page_num = 0 →
      ((worker_run env s0 (List.replicate N readPageCmd)).1).page_num = N) ∧
    (∀ (env : FlashEnv) (s : WorkerState) (k : Nat),
      ((worker_step env s { cmd := .CMD_SET_PAGE_NO, arg := k }).1).page_num = k) ∧
    (∀ (env : FlashEnv) (s : WorkerState) (a : Nat),
      ((worker_step env s { cmd := .CMD_RESET_PAGE_NO, arg := a }).1).page_num = 0) ∧
    (∀ (env : FlashEnv) (s : WorkerState) (c : Cmd),
      c.cmd ≠ .CMD_READ_PAGE → c.cmd ≠ .CMD_RESET_PAGE_NO →
      c.cmd ≠ .CMD_SET_PAGE_NO →
      ((worker_step env s c).1).page_num = s.page_num) := by
  refine ⟨?_, ?_, ?_, ?_⟩
  · intro env s0 N h0
    rw [worker_run_readPage_adds, h0, Nat.zero_add]
  · intro env s k; rfl
  · intro env s a; rfl
  · intro env s c h1 h2 h3
    cases hc : c.cmd <;> simp_all [worker_step]

/-- Witness for C3: from the initial worker state, two page reads give
counter 2, a set gives 7, a reset gives 0, and READ_ID leaves it at 0. -/
theorem C3_witness :
    ((worker_run env0 initWorker (List.replicate 2 readPageCmd)).1).page_num = 2 ∧
    ((worker_step env0 initWorker { cmd := .CMD_SET_PAGE_NO, arg := 7 }).1).page_num = 7 ∧
    ((worker_step env0 initWorker { cmd := .CMD_RESET_PAGE_NO, arg := 0 }).1).page_num = 0 ∧
    ((worker_step env0 initWorker { cmd := .CMD_READ_ID, arg := 0 }).1).page_num = 0 :=
  ⟨C3_worker_page_counter.1 env0 initWorker 2 rfl,
   C3_worker_page_counter.2.1 env0 initWorker 7,
   C3_worker_page_counter.2.2.1 env0 initWorker 0,
   C3_worker_page_counter.2.2.2 env0 initWorker { cmd := .CMD_READ_ID, arg := 0 }
     (by decide) (by decide) (by decide)⟩

/-- C10: every dequeued command publishes exactly one result; a command
with an unrecognized tag (such as CMD_NONE) changes no worker state, and
the result it publishes carries the stale size of the previously executed
command — 0 on the first iteration — rather than a distinct error value. -/
theorem C10_one_result_per_command :
    (∀ (env : FlashEnv) (s : WorkerState) (cmds : List Cmd),
      ((worker_run env s cmds).2.1).length = cmds.length) ∧
    (∀ (env : FlashEnv) (s : WorkerState) (a : Nat),
      worker_step env s { cmd := .CMD_NONE, arg := a } = (s, [])) ∧
    (∀ (env : FlashEnv) (s : WorkerState) (a : Nat) (rest : List Cmd),
      (worker_run env s ({ cmd := .CMD_NONE, arg := a } :: rest)).2.1 =
        s.res_sz :: (worker_run env s rest).2.1) ∧
    initWorker.res_sz = 0 := by
  refine ⟨?_, ?_, ?_, rfl⟩
  · intro env s cmds
    induction cmds generalizing s with
    | nil => rfl
    | cons c cs ih => simp [worker_run, ih]
  · intro env s a; rfl
  · intro env s a rest; rfl

/-! ## Serial command interface (the main loop of the control core) -/

/-- Control-core state: the displayed page counter together with the
worker it drives synchronously. -/
structure SysState where
  curr_page : Nat
  worker : WorkerState
deriving DecidableEq, Repr

/-- Reporting branch of the '0' command: on a result size outside (0, 5]
print an error with the size; otherwise print the hex ID bytes and the
human-readable explanation of the first 5 buffer bytes. -/
def readId_report (sz : Int) (buf : List Nat) : List OutEvent :=
  if sz ≤ 0 ∨ sz > (ID_SIZE : Int) then [.errReadId sz]
  else [.idHex (buf.take sz.toNat), .explainId (buf.take ID_SIZE)]

/-- Reporting branch of the '1' command: on a result size outside
(0, page + spare] print an error; otherwise print the page as hex. -/
def readPage_report (bound : Nat) (sz : Int) (buf : List Nat) : List OutEvent :=
  if sz ≤ 0 ∨ sz > (bound : Int) then [.errReadPage sz]
  else [.pageHex (buf.take sz.toNat)]

/-- Reporting branch of the '2' command: error exactly when size is not
the sentinel 1. -/
def reset_report (sz : Int) : List OutEvent :=
  if sz ≠ 1 then [.errReset sz] else []

/-- Reporting branch of the '3' command: error exactly when size is not
the sentinel 1. -/
def setPage_report (sz : Int) : List OutEvent :=
  if sz ≠ 1 then [.errSetPage sz] else []

/-- Page-number assembly of the '3' command, exactly as in the source:
(p1 & 0xff) | ((p2 & 0xff) << 8) | ((p3 & 0x1) << 16). -/
def assemble_page_no (p1 p2 p3 : Nat) : Nat :=
  (p1 &&& 0xff) ||| ((p2 &&& 0xff) <<< 8) ||| ((p3 &&& 0x1) <<< 16)

/-- One polling iteration of the main loop, dispatching on the received
character value. Bytes outside 0x30..0x39 (including the 0xFF produced by
a timed-out non-blocking read) do nothing. Digits 0-3 drive the worker
synchronously and report on the returned size; digit 4 and 5 answer
locally; digits 6-9 fall to the default case and print the help text. The
three argument reads of command 3 are modelled as optional bytes, a
missing one standing for a timed-out bounded wait. -/
def dispatch_digit (env : FlashEnv) (s : SysState) (d : Nat)
    (args : Option Nat × Option Nat × Option Nat) :
    SysState × List OutEvent :=
  match d with
    | 0 =>
        let w := (worker_step env s.worker { cmd := .CMD_READ_ID, arg := 0 }).1
        ({ curr_page := s.curr_page, worker := w },
         readId_report w.res_sz w.buffer)
    | 1 =>
        let w := (worker_step env s.worker { cmd := .CMD_READ_PAGE, arg := 0 }).1
        let bound := env.geom.page_size_bytes + env.geom.oob_size_bytes
        ({ curr_page :=
             if w.res_sz ≤ 0 ∨ w.res_sz > (bound : Int) then s.curr_page
             else s.curr_page + 1,
           worker := w },
         readPage_report bound w.res_sz w.buffer)
    | 2 =>
        let w := (worker_step env s.worker { cmd := .CMD_RESET_PAGE_NO, arg := 0 }).1
        ({ curr_page := s.curr_page, worker := w }, reset_report w.res_sz)
    | 3 =>
        match args with
        | (some p1, some p2, some p3) =>
            let w := (worker_step env s.worker
              { cmd := .CMD_SET_PAGE_NO, arg := assemble_page_no p1 p2 p3 }).1
            ({ curr_page := s.curr_page, worker := w }, setPage_report w.res_sz)
        | _ => (s, [.timeoutMsg])
    | 4 => (s, [.driveStrength])
    | 5 => (s, [.flashInfoOut env.geom.page_size_bytes env.geom.oob_size_bytes
                 env.geom.flash_size_bytes])
    | _ => (s, [.helpText])

/-- Guard of the dispatch: only characters 0x30..0x39 enter the switch
(on c - 0x30); everything else does nothing at all. -/
def dispatch_byte (env : FlashEnv) (s : SysState) (c : Nat)
    (args : Option Nat × Option Nat × Option Nat) :
    SysState × List OutEvent :=
  if 0x30 ≤ c ∧ c ≤ 0x39 then dispatch_digit env s (c - 0x30) args
  else (s, [])

/-- One polling iteration from the raw non-blocking read: no input is the
timeout value, which the assignment to a char truncates to 0xFF. -/
def sys_step (env : FlashEnv) (s : SysState) (input : Option Nat)
    (args : Option Nat × Option Nat × Option Nat) :
    SysState × List OutEvent :=
  dispatch_byte env s ((input.getD 0xFF) % 256) args

/-- Run the control loop over a list of inputs with their optional
argument bytes, collecting all printed output. -/
def sys_run (env : FlashEnv) :
    SysState → List (Option Nat × (Option Nat × Option Nat × Option Nat)) →
    SysState × List OutEvent
  | s, [] => (s, [])
  | s, (i, a) :: rest =>
      let s1 := (sys_step env s i a).1
      let out := (sys_step env s i a).2
      let r := sys_run env s1 rest
      (r.1, out ++ r.2)

/-- Control-core state at startup. -/
def sys0 : SysState := { curr_page := 0, worker := initWorker }

/-- C4: the '3' command assembles the dispatched page number as
(b0 & 0xff) | ((b1 & 0xff) << 8) | ((b2 & 0x1) << 16) — so (0x34, 0x12,
0x00) gives 0x1234 and (0x34, 0x12, 0x01) gives 0x11234, the worker page
counter becoming exactly that value — and a timeout on any of the three
argument bytes prints a timeout message and enqueues nothing, leaving the
whole system state unchanged. -/
theorem C4_set_page_ingestion :
    assemble_page_no 0x34 0x12 0x00 = 0x1234 ∧
    assemble_page_no 0x34 0x12 0x01 = 0x11234 ∧
    (∀ (env : FlashEnv) (s : SysState) (p1 p2 p3 : Nat),
      ((sys_step env s (some 0x33) (some p1, some p2, some p3)).1).worker.page_num =
        assemble_page_no p1 p2 p3) ∧
    (∀ (env : FlashEnv) (s : SysState)
       (a : Option Nat × Option Nat × Option Nat),
      (a.1 = none ∨ a.2.1 = none ∨ a.2.2 = none) →
      sys_step env s (some 0x33) a = (s, [.timeoutMsg])) := by
  refine ⟨by decide, by decide, ?_, ?_⟩
  · intro env s p1 p2 p3; rfl
  · intro env s a h
    obtain ⟨a1, a2, a3⟩ := a
    rcases h with h | h | h
    · subst h; rcases a2 with _ | v2 <;> rcases a3 with _ | v3 <;> rfl
    · subst h; rcases a1 with _ | v1 <;> rcases a3 with _ | v3 <;> rfl
    · subst h; rcases a1 with _ | v1 <;> rcases a2 with _ | v2 <;> rfl

/-- Witness for C4: a concrete dispatched set and a concrete timeout. -/
theorem C4_witness :
    ((sys_step env0 sys0 (some 0x33) (some 0x34, some 0x12, some 0x01)).1).worker.page_num =
      assemble_page_no 0x34 0x12 0x01 ∧
    sys_step env0 sys0 (some 0x33) (some 0x34, none, some 0x01) =
      (sys0, [.timeoutMsg]) :=
  ⟨C4_set_page_ingestion.2.2.1 env0 sys0 0x34 0x12 0x01,
   C4_set_page_ingestion.2.2.2 env0 sys0 (some 0x34, none, some 0x01)
     (Or.inr (Or.inl rfl))⟩

/-- C5: the serial command interface reports failure exactly by comparing
the returned result size against the per-command bound — ReadId succeeds
iff 0 < size ≤ 5, ReadPage iff 0 < size ≤ page + spare, ResetPageCounter
and SetPageCounter error iff size ≠ 1 — and the worker layer below it
prints nothing. -/
theorem C5_result_size_error_reporting :
    (∀ (sz : Int) (buf : List Nat),
      (0 < sz ∧ sz ≤ (ID_SIZE : Int) →
        readId_report sz buf =
          [.idHex (buf.take sz.toNat), .explainId (buf.take ID_SIZE)]) ∧
      (¬(0 < sz ∧ sz ≤ (ID_SIZE : Int)) →
        readId_report sz buf = [.errReadId sz])) ∧
    (∀ (bound : Nat) (sz : Int) (buf : List Nat),
      (0 < sz ∧ sz ≤ (bound : Int) →
        readPage_report bound sz buf = [.pageHex (buf.take sz.toNat)]) ∧
      (¬(0 < sz ∧ sz ≤ (bound : Int)) →
        readPage_report bound sz buf = [.errReadPage sz])) ∧
    (∀ sz : Int, reset_report sz = [.errReset sz] ↔ sz ≠ 1) ∧
    (∀ sz : Int, setPage_report sz = [.errSetPage sz] ↔ sz ≠ 1) ∧
    (∀ (env : FlashEnv) (s : WorkerState) (c : Cmd),
      (worker_step env s c).2 = []) := by
  refine ⟨?_, ?_, ?_, ?_, ?_⟩
  · intro sz buf
    constructor
    · intro h
      rw [readId_report, if_neg (by omega)]
    · intro h
      rw [readId_report, if_pos (by omega)]
  · intro bound sz buf
    constructor
    · intro h
      rw [readPage_report, if_neg (by omega)]
    · intro h
      rw [readPage_report, if_pos (by omega)]
  · intro sz
    by_cases h : sz = 1 <;> simp [reset_report, h]
  · intro sz
    by_cases h : sz = 1 <;> simp [setPage_report, h]
  · intro env s c
    obtain ⟨tag, arg⟩ := c
    cases tag <;> rfl

/-- Witness for C5: concrete sizes on both sides of each bound. -/
theorem C5_witness :
    readId_report 5 [0x98, 0xDC, 0x90, 0x26, 0x76] =
      [.idHex [0x98, 0xDC, 0x90, 0x26, 0x76],
       .explainId [0x98, 0xDC, 0x90, 0x26, 0x76]] ∧
    readId_report 9 [] = [.errReadId 9] ∧
    readPage_report 8 5 [1, 2, 3, 4, 5, 6, 7, 8] = [.pageHex [1, 2, 3, 4, 5]] ∧
    readPage_report 8 0 [] = [.errReadPage 0] ∧
    reset_report 0 = [.errReset 0] ∧
    setPage_report 2 = [.errSetPage 2] ∧
    (worker_step env0 initWorker { cmd := .CMD_NONE, arg := 0 }).2 = [] := by
  refine ⟨?_, ?_, ?_, ?_, ?_, ?_, ?_⟩
  · have h := (C5_result_size_error_reporting.1 5 [0x98, 0xDC, 0x90, 0x26, 0x76]).1
      (by decide)
    simpa using h
  · exact (C5_result_size_error_reporting.1 9 []).2 (by decide)
  · have h := (C5_result_size_error_reporting.2.1 8 5 [1, 2, 3, 4, 5, 6, 7, 8]).1
      (by decide)
    simpa using h
  · exact (C5_result_size_error_reporting.2.1 8 0 []).2 (by decide)
  · exact (C5_result_size_error_reporting.2.2.1 0).mpr (by decide)
  · exact (C5_result_size_error_reporting.2.2.2.1 2).mpr (by decide)
  · exact C5_result_size_error_reporting.2.2.2.2 env0 initWorker
      { cmd := .CMD_NONE, arg := 0 }

/-! ## Startup sequence of main -/

/-- Outcome of the startup checks in main: either the firmware prints a
message and spins forever in a tight loop — before the worker core is
launched and before the serial command loop is entered — or it proceeds
with the decoded geometry. -/
inductive StartupOutcome where
  | halted (msg : String)
  | launched (geom : FlashInfo)
deriving DecidableEq, Repr

/-- Embedding of the startup checks of main, in source order: reject an
unsupported IO width, then reject unrecognized ID bytes, else launch. -/
def startup (id : IdData) : StartupOutcome :=
  if !check_supported_io_width id then .halted "Unsupported I/O width!"
  else
    match get_flash_info id with
    | none => .halted "Unrecognized NAND flash ID bytes!"
    | some g => .launched g

/-- C6: the system launches iff the IO-width check passes and the
geometry decodes; whenever either check fails it halts with a message, so
no page operation can start with an undefined geometry; and the IO-width
check fails exactly when bit 6 of the fourth ID byte is set. -/
theorem C6_startup_halt_on_unsupported_chip :
    (∀ (id : IdData) (g : FlashInfo),
      startup id = .launched g ↔
        (check_supported_io_width id = true ∧ get_flash_info id = some g)) ∧
    (∀ id : IdData,
      check_supported_io_width id = false ∨ get_flash_info id = none →
      ∃ msg, startup id = .halted msg) ∧
    (∀ id : IdData,
      check_supported_io_width id = false ↔ id.pgsz_bksz_iow.testBit 6 = true) := by
  refine ⟨?_, ?_, ?_⟩
  · intro id g
    unfold startup
    cases hw : check_supported_io_width id
    · simp
    · cases hg : get_flash_info id <;> simp [hg]
  · intro id h
    cases hw : check_supported_io_width id
    · exact ⟨"Unsupported I/O width!", by simp [startup, hw]⟩
    · rcases h with h | h
      · rw [hw] at h; cases h
      · exact ⟨"Unrecognized NAND flash ID bytes!", by simp [startup, hw, h]⟩
  · intro id
    have h64 := Nat.and_two_pow id.pgsz_bksz_iow 6
    cases h : id.pgsz_bksz_iow.testBit 6 <;>
      rw [h] at h64 <;>
      simp only [check_supported_io_width] <;>
      norm_num at h64 ⊢ <;>
      simp [h64]

/-- Witness for C6: the documented chip launches with the 4 KB geometry;
an unknown maker halts; a chip reporting x16 organization halts. -/
theorem C6_witness :
    startup { maker := 0x98, device := 0xDC, chip_n_type := 0x90,
              pgsz_bksz_iow := 0x26, districts := 0x76 } =
      .launched { page_size_bytes := 4096, oob_size_bytes := 256,
                  flash_size_bytes := 64 * 2048 * (4096 + 256) } ∧
    (∃ msg, startup { maker := 0x2C, device := 0xDC, chip_n_type := 0x90,
                      pgsz_bksz_iow := 0x26, districts := 0x76 } = .halted msg) ∧
    (∃ msg, startup { maker := 0x98, device := 0xDC, chip_n_type := 0x90,
                      pgsz_bksz_iow := 0x66, districts := 0x76 } = .halted msg) :=
  ⟨(C6_startup_halt_on_unsupported_chip.1
      { maker := 0x98, device := 0xDC, chip_n_type := 0x90,
        pgsz_bksz_iow := 0x26, districts := 0x76 }
      { page_size_bytes := 4096, oob_size_bytes := 256,
        flash_size_bytes := 64 * 2048 * (4096 + 256) }).mpr
      ⟨by decide, by decide⟩,
   C6_startup_halt_on_unsupported_chip.2.1
      { maker := 0x2C, device := 0xDC, chip_n_type := 0x90,
        pgsz_bksz_iow := 0x26, districts := 0x76 } (Or.inr (by decide)),
   C6_startup_halt_on_unsupported_chip.2.1
      { maker := 0x98, device := 0xDC, chip_n_type := 0x90,
        pgsz_bksz_iow := 0x66, districts := 0x76 } (Or.inl (by decide))⟩

/-! ## The ready/busy poll inside read_bytes

The while loop in read_bytes samples the ready/busy line repeatedly with
no iteration bound and no timeout. The line is modelled as a schedule of
samples, and the loop as a fuel-indexed search: the source loop
terminates exactly when some finite fuel makes the search succeed. -/

/-- Fuel-indexed embedding of the ready/busy poll: sample the line at
successive iterations until it reads high. -/
def pollReady (line : Nat → Bool) : Nat → Nat → Option Nat
  | 0, _ => none
  | fuel + 1, i => if line i then some i else pollReady line fuel (i + 1)

/-- Embedding of read_bytes: after the poll succeeds, pulse read-enable
count times, sampling one byte per pulse. -/
def read_bytes_model (line : Nat → Bool) (ioSample : Nat → Nat)
    (count fuel : Nat) : Option (List Nat) :=
  match pollReady line fuel 0 with
  | none => none
  | some _ => some ((List.range count).map ioSample)

/-- Helper: a high sample within the fuel bound makes the poll succeed. -/
theorem pollReady_isSome_of_high (line : Nat → Bool) :
    ∀ (fuel i start : Nat), i < fuel → line (start + i) = true →
      (pollReady line fuel start).isSome = true := by
  intro fuel
  induction fuel with
  | zero => intro i start h _; omega
  | succ n ih =>
      intro i start hi hl
      unfold pollReady
      by_cases h0 : line start
      · simp [h0]
      · have hne : i ≠ 0 := by
          intro h; rw [h, Nat.add_zero] at hl; exact h0 hl
        obtain ⟨k, rfl⟩ := Nat.exists_eq_succ_of_ne_zero hne
        have hl1 : line (start + 1 + k) = true := by
          have harr : start + (k + 1) = start + 1 + k := by omega
          rw [harr] at hl; exact hl
        simp [h0]
        exact ih k (start + 1) (by omega) hl1

/-- Helper: if the line never reads high, no fuel makes the poll succeed. -/
theorem pollReady_none_of_never (line : Nat → Bool)
    (hn : ∀ i, line i = false) :
    ∀ fuel start, pollReady line fuel start = none := by
  intro fuel
  induction fuel with
  | zero => intro start; rfl
  | succ n ih => intro start; unfold pollReady; rw [hn start]; exact ih (start + 1)

/-- C7: the ready/busy poll in read_bytes has no iteration bound and no
timeout — if the line eventually reads high some finite fuel suffices and
read_bytes then returns exactly count sampled bytes; if the line never
reads high, no amount of fuel makes read_bytes return, so the worker core
stalls forever; and any returning run implies the line read high. -/
theorem C7_ready_busy_poll_no_timeout (line : Nat → Bool)
    (ioSample : Nat → Nat) (count : Nat) :
    ((∃ i, line i = true) →
      ∃ fuel bs, read_bytes_model line ioSample count fuel = some bs ∧
        bs.length = count) ∧
    ((∀ i, line i = false) →
      ∀ fuel, read_bytes_model line ioSample count fuel = none) ∧
    (∀ fuel bs, read_bytes_model line ioSample count fuel = some bs →
      ∃ i, line i = true) := by
  refine ⟨?_, ?_, ?_⟩
  · intro h
    obtain ⟨i, hi⟩ := h
    have hs := pollReady_isSome_of_high line (i + 1) i 0 (by omega)
      (by rw [Nat.zero_add]; exact hi)
    obtain ⟨j, hj⟩ := Option.isSome_iff_exists.mp hs
    refine ⟨i + 1, (List.range count).map ioSample, ?_, by simp⟩
    rw [read_bytes_model, hj]
  · intro hn fuel
    rw [read_bytes_model, pollReady_none_of_never line hn]
  · intro fuel bs h
    by_contra hno
    push_neg at hno
    have hn : ∀ i, line i = false := by
      intro i
      cases hl : line i
      · rfl
      · exact absurd hl (hno i)
    rw [read_bytes_model, pollReady_none_of_never line hn] at h
    cases h

/-- Witness for C7: an immediately ready line returns 3 bytes; a line that
never asserts returns nothing at a concrete fuel. -/
theorem C7_witness :
    (∃ fuel bs,
      read_bytes_model (fun _ => true) (fun _ => 0xAB) 3 fuel = some bs ∧
        bs.length = 3) ∧
    read_bytes_model (fun _ => false) (fun _ => 0xAB) 3 5 = none :=
  ⟨(C7_ready_busy_poll_no_timeout (fun _ => true) (fun _ => 0xAB) 3).1 ⟨0, rfl⟩,
   (C7_ready_busy_poll_no_timeout (fun _ => false) (fun _ => 0xAB) 3).2.1
     (fun _ => rfl) 5⟩

/-! ## Help text dispatch (claim C8) -/

theorem helpText_not_in_readId (sz : Int) (buf : List Nat) :
    OutEvent.helpText ∉ readId_report sz buf := by
  unfold readId_report; split <;> simp

theorem helpText_not_in_readPage (bound : Nat) (sz : Int) (buf : List Nat) :
    OutEvent.helpText ∉ readPage_report bound sz buf := by
  unfold readPage_report; split <;> simp

theorem helpText_not_in_reset (sz : Int) :
    OutEvent.helpText ∉ reset_report sz := by
  unfold reset_report; split <;> simp

theorem helpText_not_in_setPage (sz : Int) :
    OutEvent.helpText ∉ setPage_report sz := by
  unfold setPage_report; split <;> simp

/-- C8 counterexample: on receiving the non-digit byte 0x61, and likewise
on a polling iteration with no input at all, the main loop prints nothing
— in particular not the help text — refuting the claim that every
unrecognized input prints the help text. -/
theorem C8_counterexample :
    (sys_step env0 sys0 (some 0x61) (none, none, none)).2 = [] ∧
    OutEvent.helpText ∉ (sys_step env0 sys0 (some 0x61) (none, none, none)).2 ∧
    (sys_step env0 sys0 none (none, none, none)).2 = [] := by
  refine ⟨rfl, ?_, rfl⟩
  intro h
  exact absurd h (by decide)

/-- C8 amended: the help text is printed exactly for the input bytes
0x36..0x39 — ASCII digits that are not recognized commands; every byte
outside 0x30..0x39, including the 0xFF produced by a timed-out
non-blocking read, produces no output at all. -/
theorem C8_help_text_only_for_digits_6_to_9 (env : FlashEnv) (s : SysState)
    (args : Option Nat × Option Nat × Option Nat) :
    (∀ c : Nat, OutEvent.helpText ∈ (dispatch_byte env s c args).2 ↔
      (0x36 ≤ c ∧ c ≤ 0x39)) ∧
    (∀ c : Nat, ¬(0x30 ≤ c ∧ c ≤ 0x39) → (dispatch_byte env s c args).2 = []) ∧
    sys_step env s none args = (s, []) := by
  obtain ⟨a1, a2, a3⟩ := args
  have hout : ∀ c : Nat, ¬(0x30 ≤ c ∧ c ≤ 0x39) →
      (dispatch_byte env s c (a1, a2, a3)).2 = [] := by
    intro c hc
    simp only [dispatch_byte, if_neg hc]
  refine ⟨?_, hout, rfl⟩
  intro c
  by_cases hc : 0x30 ≤ c ∧ c ≤ 0x39
  · have hd : dispatch_byte env s c (a1, a2, a3) =
        dispatch_digit env s (c - 0x30) (a1, a2, a3) := by
      simp only [dispatch_byte, if_pos hc]
    rw [hd]
    obtain ⟨h1, h2⟩ := hc
    interval_cases c
    · norm_num
      exact (show OutEvent.helpText ∉ readId_report 5
        ((List.range ID_SIZE).map env.idByte ++ s.worker.buffer.drop ID_SIZE)
        from helpText_not_in_readId _ _)
    · norm_num
      exact helpText_not_in_readPage _ _ _
    · norm_num
      exact (show OutEvent.helpText ∉ reset_report 1
        from helpText_not_in_reset 1)
    · norm_num
      rcases a1 with _ | p1
      · exact (show OutEvent.helpText ∉ [OutEvent.timeoutMsg] by simp)
      · rcases a2 with _ | p2
        · exact (show OutEvent.helpText ∉ [OutEvent.timeoutMsg] by simp)
        · rcases a3 with _ | p3
          · exact (show OutEvent.helpText ∉ [OutEvent.timeoutMsg] by simp)
          · exact (show OutEvent.helpText ∉ setPage_report 1
              from helpText_not_in_setPage 1)
    · norm_num
      exact (show OutEvent.helpText ∉ [OutEvent.driveStrength] by simp)
    · norm_num
      exact (show OutEvent.helpText ∉
        [OutEvent.flashInfoOut env.geom.page_size_bytes env.geom.oob_size_bytes
          env.geom.flash_size_bytes] by simp)
    · norm_num
      exact (show OutEvent.helpText ∈ [OutEvent.helpText] by simp)
    · norm_num
      exact (show OutEvent.helpText ∈ [OutEvent.helpText] by simp)
    · norm_num
      exact (show OutEvent.helpText ∈ [OutEvent.helpText] by simp)
    · norm_num
      exact (show OutEvent.helpText ∈ [OutEvent.helpText] by simp)
  · rw [hout c hc]
    simp
    omega

/-- Witness for C8 amended: byte 0x37 prints the help text; byte 0x61
prints nothing. -/
theorem C8_amended_witness :
    OutEvent.helpText ∈ (dispatch_byte env0 sys0 0x37 (none, none, none)).2 ∧
    (dispatch_byte env0 sys0 0x61 (none, none, none)).2 = [] :=
  ⟨((C8_help_text_only_for_digits_6_to_9 env0 sys0 (none, none, none)).1
      0x37).mpr (by decide),
   (C8_help_text_only_for_digits_6_to_9 env0 sys0 (none, none, none)).2.1
      0x61 (by decide)⟩

/-! ## The displayed page counter of the control core (claim C9) -/

/-- C9 counterexample: a single successfully completed SetPageCounter
command (byte 0x33 with argument bytes 5, 0, 0; result size 1, no error
printed) leaves the control-core counter at 0 while the worker page
counter becomes 5, refuting the claim that the two counters agree after
any sequence of successfully completed commands. -/
theorem C9_counterexample :
    (sys_step env0 sys0 (some 0x33) (some 5, some 0, some 0)).2 = [] ∧
    ((sys_step env0 sys0 (some 0x33) (some 5, some 0, some 0)).1).curr_page = 0 ∧
    ((sys_step env0 sys0 (some 0x33) (some 5, some 0, some 0)).1).worker.page_num = 5 ∧
    ((sys_step env0 sys0 (some 0x33) (some 5, some 0, some 0)).1).curr_page ≠
      ((sys_step env0 sys0 (some 0x33) (some 5, some 0, some 0)).1).worker.page_num := by
  exact ⟨rfl, rfl, rfl, by decide⟩

/-- Helper: one successful ReadPage iteration advances both counters. -/
theorem sys_step_readPage_adds_one (env : FlashEnv) (s : SysState)
    (a : Option Nat × Option Nat × Option Nat)
    (hb : 0 < env.geom.page_size_bytes + env.geom.oob_size_bytes) :
    ((sys_step env s (some 0x31) a).1).curr_page = s.curr_page + 1 ∧
    ((sys_step env s (some 0x31) a).1).worker.page_num = s.worker.page_num + 1 := by
  constructor
  · show (if (((env.geom.page_size_bytes + env.geom.oob_size_bytes : Nat) : Int) ≤ 0 ∨
        ((env.geom.page_size_bytes + env.geom.oob_size_bytes : Nat) : Int) >
          ((env.geom.page_size_bytes + env.geom.oob_size_bytes : Nat) : Int))
      then s.curr_page else s.curr_page + 1) = s.curr_page + 1
    rw [if_neg]
    intro h
    rcases h with h | h
    · have : (0 : Int) < ((env.geom.page_size_bytes + env.geom.oob_size_bytes : Nat) : Int) := by
        exact_mod_cast hb
      omega
    · omega
  · rfl

/-- Helper: N successful ReadPage iterations advance both counters by N. -/
theorem sys_run_readPage_adds (env : FlashEnv)
    (a : Option Nat × Option Nat × Option Nat)
    (hb : 0 < env.geom.page_size_bytes + env.geom.oob_size_bytes) :
    ∀ (N : Nat) (s : SysState),
      ((sys_run env s (List.replicate N (some 0x31, a))).1).curr_page =
        s.curr_page + N ∧
      ((sys_run env s (List.replicate N (some 0x31, a))).1).worker.page_num =
        s.worker.page_num + N := by
  intro N
  induction N with
  | zero => intro s; exact ⟨rfl, rfl⟩
  | succ n ih =>
      intro s
      rw [List.replicate_succ]
      have hstep := sys_step_readPage_adds_one env s a hb
      have hrec := ih ((sys_step env s (some 0x31) a).1)
      constructor
      · show ((sys_run env ((sys_step env s (some 0x31) a).1)
          (List.replicate n (some 0x31, a))).1).curr_page = s.curr_page + (n + 1)
        rw [hrec.1, hstep.1]
        omega
      · show ((sys_run env ((sys_step env s (some 0x31) a).1)
          (List.replicate n (some 0x31, a))).1).worker.page_num =
            s.worker.page_num + (n + 1)
        rw [hrec.2, hstep.2]
        omega

/-- C9 amended: the displayed counter of the control core counts only the
successfully completed ReadPage commands — after N consecutive successful
ReadPage commands from startup both counters equal N — but a
ResetPageCounter or SetPageCounter command changes the worker counter
without updating the control-core counter, so the two need not agree
after arbitrary command sequences. -/
theorem C9_mirror_only_for_readPage_runs (env : FlashEnv)
    (a : Option Nat × Option Nat × Option Nat)
    (hb : 0 < env.geom.page_size_bytes + env.geom.oob_size_bytes) (N : Nat) :
    ((sys_run env sys0 (List.replicate N (some 0x31, a))).1).curr_page = N ∧
    ((sys_run env sys0 (List.replicate N (some 0x31, a))).1).worker.page_num = N ∧
    ((sys_step env sys0 (some 0x33) (some 5, some 0, some 0)).1).worker.page_num =
      assemble_page_no 5 0 0 ∧
    ((sys_step env sys0 (some 0x33) (some 5, some 0, some 0)).1).curr_page =
      sys0.curr_page := by
  have h := sys_run_readPage_adds env a hb N sys0
  have h1 : sys0.curr_page = 0 := rfl
  have h2 : sys0.worker.page_num = 0 := rfl
  obtain ⟨ha, hb'⟩ := h
  exact ⟨by omega, by omega, rfl, rfl⟩

/-- Witness for C9 amended: two page reads on the documented chip leave
both counters at 2. -/
theorem C9_amended_witness :
    ((sys_run env0 sys0 (List.replicate 2 (some 0x31, (none, none, none)))).1).curr_page = 2 ∧
    ((sys_run env0 sys0 (List.replicate 2 (some 0x31, (none, none, none)))).1).worker.page_num = 2 :=
  ⟨(C9_mirror_only_for_readPage_runs env0 (none, none, none) (by decide) 2).1,
   (C9_mirror_only_for_readPage_runs env0 (none, none, none) (by decide) 2).2.1⟩

end NandDump
